import Mathlib

/-!
# MechWolf hardware-execution core: shallow embedding and verification

This file embeds, in Lean 4, the parts of the MechWolf_dev repository that the
spec's calibration, serial-pool, component and tube claims are about:

* `CommandProcessor.convert_ups_to_freq` and `FreeStepController.run_basic_command`
  (src/mechwolf/components/contrib/freestep_3DSyringePump_controller.py),
* `SerialManager.send_command`'s syringe-diameter frequency adjustment (same file),
* `JupyterCalibrationTool.calculate_calibration`
  (src/mechwolf/components/contrib/calibration_3DSyringePumps_mLmin.py),
* the module-level shared-controller pool of `FreeStepPump.__enter__`/`__exit__`
  and `FreeStepPump._update` (src/mechwolf/components/contrib/freestep_pump.py),
* `TMCPump._update` (src/mechwolf/components/contrib/tmc_stepper.py),
* `Component.__init__` and `Tube.__init__` (src/components.py).

Python floats are embedded as exact rationals (ℚ); fallible Python code is
embedded as `Except`/`Option`-returning functions; the mutable module-level
registries are embedded as explicit state passed through step functions.
-/

namespace MechWolf

/-! ## Calibration data model

`motors.json` entries carry `calibrated`, `UPSSlope`, `UPSIntercept`,
`minUPS`, `maxUPS` (see `calculate_calibration` and `convert_ups_to_freq`).
-/

/-- A motor calibration profile, as read by `convert_ups_to_freq`. -/
structure MotorProfile where
  calibrated : Bool
  UPSSlope : ℚ
  UPSIntercept : ℚ
  minUPS : ℚ
  maxUPS : ℚ
deriving DecidableEq, Repr

/-- Embeds `CommandProcessor.convert_ups_to_freq` (freestep_3DSyringePump_controller.py,
lines 381–403).  Returns `none` where the Python returns `None`:
when the motor is not calibrated, when `ups >= max_ups`, or when
`ups <= min_ups`; otherwise returns `(ups - intercept) / slope`. -/
def convert_ups_to_freq (motor_profile : MotorProfile) (ups : ℚ) : Option ℚ :=
  if !motor_profile.calibrated then none
  else if ups ≥ motor_profile.maxUPS then none
  else if ups ≤ motor_profile.minUPS then none
  else some ((ups - motor_profile.UPSIntercept) / motor_profile.UPSSlope)

/-! ## Calibration fit (`calculate_calibration`)

`JupyterCalibrationTool.calculate_calibration` (calibration_3DSyringePumps_mLmin.py,
lines 1101–1196) validates its widget inputs, computes each trial's flow rate as
`(measurement / duration) * 60` (duration is entered in seconds, flow is stored
in mL/min), fits the two-point line, clamps `min_ups` at `0.000005`, caps
`max_ups` at 1000 Hz, and only then writes the calibration fields into the
selected motor profile.  Early `return`s (logged input errors) and an uncaught
`ZeroDivisionError` both leave the motor profile untouched.
-/

/-- Python's `str.strip()`: remove leading and trailing whitespace. -/
def pyStrip (s : String) : String :=
  ⟨((s.data.dropWhile Char.isWhitespace).reverse.dropWhile Char.isWhitespace).reverse⟩

/-- The clamp applied to `min_ups` in `calculate_calibration`:
`min_ups = intercept; if min_ups < 0.000005: min_ups = 0.000005`. -/
def clampMin (x : ℚ) : ℚ :=
  if x < 5 / 1000000 then 5 / 1000000 else x

/-- The distinct ways `calculate_calibration` can fail to store a calibration. -/
inductive CalibError where
  | noMotorSelected
  | missingSyringeText
  | invalidSyringe
  | invalidMeasurement
  /-- Python `ZeroDivisionError` from `measurement / duration` or
  `... / (freq2 - freq1)`; it propagates out of the method uncaught. -/
  | zeroDivision
deriving DecidableEq, Repr

/-- The calibration fields `calculate_calibration` writes into the selected
motor profile on success. -/
structure CalibResult where
  UPSSlope : ℚ
  UPSIntercept : ℚ
  maxUPS : ℚ
  minUPS : ℚ
deriving DecidableEq, Repr

/-- Embeds `JupyterCalibrationTool.calculate_calibration`
(calibration_3DSyringePumps_mLmin.py, lines 1101–1196), with the widget reads
replaced by explicit arguments.  `motor_selected` stands for
`self.selected_motor` being non-None; `brand`/`model` are the raw text inputs
(the code `.strip()`s them); durations are in seconds, measurements in mL. -/
def calculate_calibration (motor_selected : Bool) (brand model : String)
    (syringe_volume syringe_diameter : ℚ)
    (freq1 dur1 meas1 freq2 dur2 meas2 : ℚ) : Except CalibError CalibResult :=
  if !motor_selected then .error .noMotorSelected
  else if pyStrip brand = "" || pyStrip model = "" then .error .missingSyringeText
  else if syringe_volume ≤ 0 || syringe_diameter ≤ 0 then .error .invalidSyringe
  else if meas1 ≤ 0 || meas2 ≤ 0 then .error .invalidMeasurement
  else if dur1 = 0 then .error .zeroDivision
  else if dur2 = 0 then .error .zeroDivision
  else
    let ups1 : ℚ := meas1 / dur1 * 60
    let ups2 : ℚ := meas2 / dur2 * 60
    if freq2 - freq1 = 0 then .error .zeroDivision
    else
      let ups_slope := (ups2 - ups1) / (freq2 - freq1)
      let ups_intercept := ups1 - ups_slope * freq1
      let max_ups := ups_intercept + ups_slope * 1000
      .ok ⟨ups_slope, ups_intercept, max_ups, clampMin ups_intercept⟩

/-- The motor profile produced by storing a successful fit (the code sets
`calibrated = True` together with the four UPS fields). -/
def CalibResult.toProfile (r : CalibResult) : MotorProfile :=
  ⟨true, r.UPSSlope, r.UPSIntercept, r.minUPS, r.maxUPS⟩

/-- The net effect of `calculate_calibration` on the selected motor profile:
updated only when the computation reaches the storing step. -/
def calibrate_and_store (prev : MotorProfile) (motor_selected : Bool)
    (brand model : String) (syringe_volume syringe_diameter : ℚ)
    (freq1 dur1 meas1 freq2 dur2 meas2 : ℚ) : MotorProfile :=
  match calculate_calibration motor_selected brand model syringe_volume
      syringe_diameter freq1 dur1 meas1 freq2 dur2 meas2 with
  | .ok r => r.toProfile
  | .error _ => prev

/-! ## Wire commands and `SerialManager.send_command`

Commands are newline-delimited JSON objects.  We embed a command as a record of
the fields the code reads or writes; absent JSON fields are `none`.
-/

/-- A JSON wire command as built by `run_basic`, `run_timed`, `stop_motor`,
`run_timed_command` and `TMCPump`.  Optional fields model keys that may be
absent from the dict. -/
structure CommandData where
  type : String
  stepPin : Option ℤ := none
  dirPin : Option ℤ := none
  freq : Option ℚ := none
  direction : Option String := none
  timeValue : Option ℚ := none
  timeUnit : Option String := none
  current : Option ℤ := none
  microsteps : Option ℤ := none
  syringeDiameter : Option ℚ := none
  referenceDiameter : Option ℚ := none
deriving DecidableEq, Repr

/-- The value the code uses for π in `send_command`. -/
def piApprox : ℚ := 314159 / 100000

namespace SerialManager

/-- Embeds the syringe-diameter adjustment of `SerialManager.send_command`
(freestep_3DSyringePump_controller.py, lines 88–109): when the command carries
both `syringeDiameter` and `freq`, scale `freq` by
`reference_area / cross_sectional_area` (reference diameter defaults to 8.0 mm)
and delete the two diameter fields before transmission.  This is the command
actually written to the port. -/
def prepare_command (c : CommandData) : CommandData :=
  match c.syringeDiameter, c.freq with
  | some diameter, some f =>
    let radius := diameter / 2
    let cross_sectional_area := piApprox * radius ^ 2
    let reference_diameter := c.referenceDiameter.getD 8
    let reference_radius := reference_diameter / 2
    let reference_area := piApprox * reference_radius ^ 2
    let area_ratio := if cross_sectional_area > 0 then reference_area / cross_sectional_area else 1
    { c with freq := some (f * area_ratio), syringeDiameter := none, referenceDiameter := none }
  | _, _ => c

end SerialManager

/-! ## `CommandProcessor.run_basic` / `stop_motor` and
`FreeStepController.run_basic_command` / `stop_command`

`run_basic_command` (controller file, lines 451–478) checks calibration, looks
the motor up in the MCU profile's `motors` list to find the step/dir pins,
converts UPS to frequency, and sends a `basic` command.  `stop_command`
(lines 529–547) does the pin lookup and sends a `stop` command.
-/

/-- One `(motorId, stepPin, dirPin)` association inside an MCU profile. -/
structure MotorConfig where
  uniqueID : String
  step : ℤ
  dir : ℤ
deriving DecidableEq, Repr

/-- An MCU profile as read by the controller: its list of motor associations. -/
structure MCUProfile where
  motors : List MotorConfig
deriving DecidableEq, Repr

/-- The `uniqueID`-keyed lookup both `run_basic_command` and `stop_command`
perform over `mcu_profile["motors"]`. -/
def MCUProfile.findMotor (mcu : MCUProfile) (motorID : String) : Option MotorConfig :=
  mcu.motors.find? (fun m => m.uniqueID = motorID)

/-- A motor profile together with its `uniqueID` and optional syringe info,
as consumed by the controller-level commands. -/
structure MotorRecord where
  uniqueID : String
  profile : MotorProfile
  syringeInnerDiameterMM : Option ℚ := none
deriving DecidableEq, Repr

/-- Embeds `CommandProcessor.run_basic` (lines 348–357): the `basic` command dict. -/
def CommandProcessor.run_basic (direction : String) (freq : ℚ)
    (step_pin dir_pin : ℤ) : CommandData :=
  { type := "basic", direction := some direction, freq := some freq,
    stepPin := some step_pin, dirPin := some dir_pin }

/-- Embeds `CommandProcessor.stop_motor` (lines 372–379): the `stop` command dict. -/
def CommandProcessor.stop_motor (step_pin dir_pin : ℤ) : CommandData :=
  { type := "stop", stepPin := some step_pin, dirPin := some dir_pin }

namespace FreeStepController

/-- Embeds `FreeStepController.run_basic_command` (lines 451–478).  Returns the
command transmitted on success (`some cmd` for Python `True` after the send),
`none` where the Python returns `False` before sending anything. -/
def run_basic_command (motor : MotorRecord) (mcu : MCUProfile)
    (ups : ℚ) (direction : String) : Option CommandData :=
  if !motor.profile.calibrated then none
  else
    match mcu.findMotor motor.uniqueID with
    | none => none
    | some cfg =>
      match convert_ups_to_freq motor.profile ups with
      | none => none
      | some freq => some (CommandProcessor.run_basic direction freq cfg.step cfg.dir)

/-- Embeds `FreeStepController.stop_command` (lines 529–547): pin lookup then a
`stop` command; `none` when the motor is absent from the MCU profile. -/
def stop_command (mcu : MCUProfile) (motor : MotorRecord) : Option CommandData :=
  match mcu.findMotor motor.uniqueID with
  | none => none
  | some cfg => some (CommandProcessor.stop_motor cfg.step cfg.dir)

end FreeStepController

/-! ## Shared controller pool (`freestep_pump.py` module state)

`_shared_controllers : port -> controller` and `_port_users : port -> list of
pumps` are module-level dicts mutated by `FreeStepPump.__enter__` and
`__exit__`.  We embed the dicts as functions returning `Option`, controllers as
`Nat` identities handed out by a counter (a fresh id models constructing a new
`FreeStepController`, i.e. opening a new handle), and record which controllers
have been disconnected (`disconnect_port` + `cleanup`).
-/

/-- The module-level registry state of `freestep_pump.py`. -/
structure PoolState where
  /-- `_shared_controllers`: `none` models the key being absent. -/
  shared_controllers : String → Option ℕ
  /-- `_port_users`: `none` models the key being absent; pumps are `Nat` ids. -/
  port_users : String → Option (List ℕ)
  /-- Next fresh controller identity (each `FreeStepController()` call). -/
  next_controller : ℕ
  /-- Controllers on which `disconnect_port` + `cleanup` have run. -/
  disconnected : List ℕ

/-- Pointwise dict update `d[k] = v`. -/
def dictSet {α : Type} (d : String → Option α) (k : String) (v : Option α) :
    String → Option α :=
  fun q => if q = k then v else d q

namespace FreeStepPump

/-- Embeds the pool manipulation of `FreeStepPump.__enter__` (freestep_pump.py,
lines 48–103): append the pump to `_port_users[port]` (creating the entry),
then reuse `_shared_controllers[port]` if present, else construct a fresh
controller, connect it and register it.  Returns the new state and the
controller bound to `self._controller`.  The subsequent profile lookups and
initial stop do not touch the pool and are omitted here. -/
def enter (ps : PoolState) (port : String) (pump : ℕ) : PoolState × ℕ :=
  let users := (ps.port_users port).getD [] ++ [pump]
  let ps := { ps with port_users := dictSet ps.port_users port (some users) }
  match ps.shared_controllers port with
  | some c => (ps, c)
  | none =>
    let c := ps.next_controller
    ({ ps with
        shared_controllers := dictSet ps.shared_controllers port (some c),
        next_controller := c + 1 }, c)

/-- Embeds the pool manipulation of `FreeStepPump.__exit__` (freestep_pump.py,
lines 105–129): remove the pump from `_port_users[port]`; if the remaining
user list is empty and a shared controller exists for the port, disconnect it,
clean it up and delete it from `_shared_controllers` (the `_port_users` entry
itself is left in place, as in the source). -/
def exit (ps : PoolState) (port : String) (pump : ℕ) : PoolState :=
  match ps.port_users port with
  | none => ps
  | some users =>
    let users := users.erase pump
    let ps := { ps with port_users := dictSet ps.port_users port (some users) }
    if users = [] then
      match ps.shared_controllers port with
      | some c =>
        { ps with
            shared_controllers := dictSet ps.shared_controllers port none,
            disconnected := ps.disconnected ++ [c] }
      | none => ps
    else ps

end FreeStepPump

/-! ## `FreeStepPump._update` and the `diameter_ratio` keyword

`FreeStepPump._update` (freestep_pump.py, lines 131–195) compares the rate in
mL/min against `self._last_rate`, stops the pump near zero, and otherwise sends
a stop followed by a call
`self._controller.run_basic_command(..., diameter_ratio=...)`.
`FreeStepController.run_basic_command` is declared
`def run_basic_command(self, port, motor_profile, mcu_profile, ups, direction)`
with no `diameter_ratio` parameter and no `**kwargs`, so Python raises
`TypeError` at that call site, before the callee body runs.
-/

/-- The parameter names of `FreeStepController.run_basic_command`
(controller file, line 451), excluding `self`. -/
def run_basic_command_params : List String :=
  ["port", "motor_profile", "mcu_profile", "ups", "direction"]

/-- Python's acceptance check for a call with `npos` positional arguments and
the given keyword names against a parameter list (no defaults relevant here,
no `*args`/`**kwargs` in the callee): every positional slot must exist and
every keyword must name a parameter not already bound positionally. -/
def pyCallAccepts (params : List String) (npos : ℕ) (kwargs : List String) : Bool :=
  npos ≤ params.length && kwargs.all (fun k => (params.drop npos).contains k)

/-- Python exception kinds surfaced by the embedded methods. -/
inductive PyError where
  | runtimeError
  | typeError
deriving DecidableEq, Repr

/-- The runtime state `_update` reads: initialization flags, profiles, the
rate (already converted to mL/min), the last-sent rate, and the in-use
syringe diameter in mm. -/
structure FSPumpState where
  port_initialized : Bool
  mcu_profile : Option MCUProfile
  motor_record : Option MotorRecord
  rate_mlmin : ℚ
  last_rate : ℚ
  syringe_diameter_mm : ℚ
deriving DecidableEq, Repr

/-- The observable outcome of one `_update` call: the commands actually
written to the serial port (in order), the mutated state, and the exception
escaping the coroutine, if any. -/
structure UpdateResult where
  sent : List CommandData
  state : FSPumpState
  error : Option PyError
deriving DecidableEq, Repr

namespace FreeStepPump

/-- Embeds `FreeStepPump._update` (freestep_pump.py, lines 131–195).
The initialization guard raises `RuntimeError`; an unchanged rate sends
nothing; a near-zero rate (|rate| ≤ 1e-6) sends one stop; otherwise the code
sends a stop, computes `diameter_ratio = (calibrated/current)**2` and calls
`run_basic_command(..., diameter_ratio=diameter_ratio)`, which fails Python's
signature check and raises `TypeError` after the stop was already sent and
`_last_rate` already overwritten. -/
def update (s : FSPumpState) : UpdateResult :=
  -- `if not self._port_initialized or not self._mcu_profile or not
  -- self._motor_profile: raise RuntimeError` — a missing profile or an
  -- uninitialized port raises before anything is sent
  match s.mcu_profile, s.motor_record with
  | some mcu, some motor =>
    if !s.port_initialized then ⟨[], s, some .runtimeError⟩
    else if s.rate_mlmin ≠ s.last_rate then
      let s := { s with last_rate := s.rate_mlmin }
      let abs_rate := |s.rate_mlmin|
      if abs_rate ≤ 1 / 1000000 then
        ⟨(FreeStepController.stop_command mcu motor).toList, s, none⟩
      else
        let stop_sent := (FreeStepController.stop_command mcu motor).toList
        -- diameter_ratio taken from syringeInfo's innerDiameterMM when present
        let calibrated_diameter := motor.syringeInnerDiameterMM
        let current_diameter := s.syringe_diameter_mm
        let _diameter_ratio : ℚ :=
          match calibrated_diameter with
          | some cd =>
            if cd ≠ 0 ∧ current_diameter ≠ 0 ∧ cd ≠ current_diameter then
              (cd / current_diameter) ^ 2
            else 1
          | none => 1
        if pyCallAccepts run_basic_command_params 5 ["diameter_ratio"] then
          -- would execute run_basic_command; unreachable for this signature
          let direction := if s.rate_mlmin < 0 then ("backward") else ("forward")
          ⟨stop_sent ++
            (FreeStepController.run_basic_command motor mcu abs_rate direction).toList,
            s, none⟩
        else
          ⟨stop_sent, s, some .typeError⟩
    else ⟨[], s, none⟩
  | _, _ => ⟨[], s, some .runtimeError⟩

end FreeStepPump

/-! ## `TMCPump._update` (tmc_stepper.py)

`TMCPump` keeps no last-sent value: `_update` (lines 125–156) converts the
rate to Hz and sends exactly one command — `stop` at 0 Hz, `basic` otherwise —
on every call.
-/

/-- The state `TMCPump._update` reads. -/
structure TMCState where
  step_pin : ℤ
  dir_pin : ℤ
  current : ℤ
  microsteps : ℤ
  steps_per_ml : ℚ
  rate_mlmin : ℚ
  ser_connected : Bool
deriving DecidableEq, Repr

namespace TMCPump

/-- Embeds `TMCPump._hz_from_flow_rate` (tmc_stepper.py, lines 120–123). -/
def hz_from_flow_rate (s : TMCState) : ℚ :=
  s.rate_mlmin * s.steps_per_ml / 60

/-- Embeds `TMCPump._update` (tmc_stepper.py, lines 125–156): build a `stop`
command at 0 Hz or a `basic` command otherwise, then `_send_command` it
(which raises `RuntimeError` when no serial connection is established).
Returns the single command written, or the escaping exception. -/
def update (s : TMCState) : Except PyError (List CommandData) :=
  let hz := hz_from_flow_rate s
  let command : CommandData :=
    if hz = 0 then
      { type := "stop", stepPin := some s.step_pin, dirPin := some s.dir_pin }
    else
      let direction := if s.rate_mlmin ≥ 0 then ("forward") else ("backward")
      { type := "basic", stepPin := some s.step_pin, dirPin := some s.dir_pin,
        freq := some |hz|, direction := some direction,
        current := some s.current, microsteps := some s.microsteps }
  if !s.ser_connected then .error .runtimeError
  else .ok [command]

end TMCPump

/-! ## `components.py`: Component naming and Tube validation

`Component.__init__` keeps a class-level `used_names` set (defined once on
`Component`, hence shared by every subclass) and a per-class `id_counter`.
`Tube.__init__` takes its three geometric fields as strings, parses them with
`pint`, but compares the *raw string arguments* on line 59
(`if outer_diameter <= inner_diameter:`), which in Python is lexicographic
string comparison.
-/

/-- Python's `<=` on strings: lexicographic comparison of code points. -/
def pyCharListLe : List Char → List Char → Bool
  | [], _ => true
  | _ :: _, [] => false
  | a :: as, b :: bs => if a < b then true else if b < a then false else pyCharListLe as bs

/-- Python string `s <= t`. -/
def pyStrLe (a b : String) : Bool := pyCharListLe a.data b.data

/-- Dimensionalities relevant to `Tube.__init__`'s unit checks. -/
inductive Dim where
  | length
  | temperature
  | dimensionless
deriving DecidableEq, Repr

/-- A parsed `pint` quantity: magnitude (in the base unit of its dimension)
and dimensionality. -/
structure PintQuantity where
  value : ℚ
  dim : Dim
deriving DecidableEq, Repr

/-- Splitting a character list at every occurrence of a separator. -/
def splitOnChar (sep : Char) : List Char → List (List Char)
  | [] => [[]]
  | c :: cs =>
    let rest := splitOnChar sep cs
    if c = sep then [] :: rest
    else
      match rest with
      | r :: rs => (c :: r) :: rs
      | [] => [[c]]

/-- Python's `str.split(sep)` for a single-character separator. -/
def pySplit (s : String) (sep : Char) : List String :=
  (splitOnChar sep s.data).map (fun cs => ⟨cs⟩)

/-- The numeric value of a decimal digit character. -/
def digitVal? (c : Char) : Option ℕ :=
  if c.isDigit then some (c.toNat - 48) else none

/-- Folds a digit string into a natural number; `none` on a non-digit. -/
def natOfDigits? : List Char → ℕ → Option ℕ
  | [], acc => some acc
  | c :: cs, acc =>
    match digitVal? c with
    | some d => natOfDigits? cs (acc * 10 + d)
    | none => none

/-- Parses a nonempty all-digit string as a natural number. -/
def strToNat? (s : String) : Option ℕ :=
  match s.data with
  | [] => none
  | cs => natOfDigits? cs 0

/-- Parses a nonnegative decimal numeral such as `50`, `1.0`, `2.5`. -/
def parseDecimal? (s : String) : Option ℚ :=
  match pySplit s '.' with
  | [w] => (strToNat? w).map (fun n => (n : ℚ))
  | [w, f] => do
    let wn ← strToNat? w
    let fn ← strToNat? f
    pure ((wn : ℚ) + (fn : ℚ) / (10 : ℚ) ^ f.length)
  | _ => none

/-- The units occurring in tube/temperature expressions: conversion factor to
the dimension's base unit and the dimensionality. -/
def unitTable : List (String × ℚ × Dim) :=
  [("mm", 1, .length), ("cm", 10, .length), ("m", 1000, .length),
   ("in", 127 / 5, .length),
   ("degC", 1, .temperature), ("degK", 1, .temperature), ("degF", 5 / 9, .temperature)]

/-- Embeds `ureg.parse_expression` for the `<number> [unit]` expressions
`Tube.__init__` receives: a bare numeral is dimensionless, a numeral followed
by a known unit carries that unit's dimensionality. -/
def parse_expression (s : String) : Option PintQuantity :=
  match pySplit s ' ' with
  | [n] => (parseDecimal? n).map (fun v => ⟨v, .dimensionless⟩)
  | [n, u] => do
    let v ← parseDecimal? n
    let fd ← (unitTable.find? (fun e => e.1 = u)).map (fun e => e.2)
    pure ⟨v * fd.1, fd.2⟩
  | _ => none

/-- The failure modes of `Tube.__init__` (all `ValueError` in the source,
besides `pint`'s own parse errors). -/
inductive TubeError where
  | parseError
  | outerNotGreater
  | invalidLengthUnit
  | invalidTempUnit
deriving DecidableEq, Repr

/-- A constructed `Tube` (src/components.py, lines 52–77). `volume_over_pi`
is the coefficient of π in `self.volume = pi * (ID/2)**2 * length`. -/
structure Tube where
  length : PintQuantity
  inner_diameter : PintQuantity
  outer_diameter : PintQuantity
  material : Option String
  temp : Option PintQuantity
  /-- Whether the `length <= diameter` warning fired (non-fatal). -/
  warned : Bool
  volume_over_pi : ℚ
deriving DecidableEq, Repr

/-- Embeds `Tube.__init__` (src/components.py, lines 52–77), preserving the
source's statement order: parse the three geometric strings, compare the raw
`outer_diameter`/`inner_diameter` *strings* (line 59), warn on raw-string
length comparisons (lines 61–62), parse `temp` if given, compute the volume,
then check the parsed dimensionalities (lines 72–77). -/
def Tube.make (length inner_diameter outer_diameter : String)
    (material : Option String) (temp : Option String) :
    Except TubeError Tube := do
  let lq ← match parse_expression length with
    | some q => pure q | none => throw .parseError
  let iq ← match parse_expression inner_diameter with
    | some q => pure q | none => throw .parseError
  let oq ← match parse_expression outer_diameter with
    | some q => pure q | none => throw .parseError
  -- line 59: Python compares the raw string arguments, not the parsed values
  if pyStrLe outer_diameter inner_diameter then throw .outerNotGreater
  -- lines 61–62: warning only, also on the raw strings
  let warned := pyStrLe length outer_diameter || pyStrLe length inner_diameter
  let tq ← match temp with
    | none => pure none
    | some ts => match parse_expression ts with
      | some q => pure (some q) | none => throw .parseError
  let volume_over_pi := (iq.value / 2) ^ 2 * lq.value
  -- lines 72–75: every geometric field must have length dimensionality
  if lq.dim ≠ .length ∨ iq.dim ≠ .length ∨ oq.dim ≠ .length then
    throw .invalidLengthUnit
  -- lines 76–77
  if h : tq.isSome then
    if (tq.get h).dim ≠ .temperature then throw .invalidTempUnit
  return { length := lq, inner_diameter := iq, outer_diameter := oq,
           material := material, temp := tq, warned := warned,
           volume_over_pi := volume_over_pi }

/-! ### Component naming (`Component.__init__`, src/components.py lines 8–22)

`used_names` is a single set shared across all component classes (defined on
`Component` and only read/mutated through `self.__class__.used_names`, which
resolves to that one set); `id_counter` is redefined per class. -/

/-- The process-wide naming state: the shared `used_names` set (as a
duplicate-free list) and the per-class `id_counter` map keyed by class name. -/
structure NameState where
  used_names : List String
  id_counter : String → ℕ

/-- Set insertion for the `used_names` model. -/
def setAdd (l : List String) (s : String) : List String :=
  if s ∈ l then l else l ++ [s]

/-- The decimal digit character for `n < 10`. -/
def natDigitChar (n : ℕ) : Char := Char.ofNat (48 + n)

/-- Decimal printing with explicit fuel (structural recursion). -/
def natToStrAux : ℕ → ℕ → List Char
  | 0, _ => []
  | fuel + 1, n =>
    if n < 10 then [natDigitChar n]
    else natToStrAux fuel (n / 10) ++ [natDigitChar (n % 10)]

/-- Python's `str(n)` for a natural number. -/
def natToStr (n : ℕ) : String := ⟨natToStrAux (n + 1) n⟩

/-- Embeds `Component.__init__` (src/components.py, lines 13–22) for a
component class named `cls`: an absent `name` is auto-generated as
`cls + "_" + str(id_counter)` (incrementing the counter) with *no* membership
check; an explicit `name` raises `ValueError` when already in `used_names`;
the chosen name is then added to the shared set. -/
def Component.init (st : NameState) (cls : String) (name : Option String) :
    Except String (String × NameState) :=
  match name with
  | none =>
    let n := cls ++ "_" ++ natToStr (st.id_counter cls)
    let st := { st with
      id_counter := fun c => if c = cls then st.id_counter cls + 1 else st.id_counter c }
    .ok (n, { st with used_names := setAdd st.used_names n })
  | some nm =>
    if nm ∈ st.used_names then
      .error ("Cannot have two components with the same name.")
    else
      .ok (nm, { st with used_names := setAdd st.used_names nm })

/-! ## Concrete instances used in the theorems below -/

/-- A calibrated motor profile with slope 1, intercept 0, band `(1, 10)`. -/
def bandProfile : MotorProfile := ⟨true, 1, 0, 1, 10⟩

/-- The fit of trials `(freq 100, vol 2 mL, dur 1 s)` and
`(freq 200, vol 1 mL, dur 1 s)`: a decreasing line. -/
def fitDecreasing : Except CalibError CalibResult :=
  calculate_calibration true ("BD") ("Plastipak") 10 8 100 1 2 200 1 1

/-- The fit of trials `(freq 100, vol 1 mL, dur 1 s)` and
`(freq 200, vol 2 mL, dur 1 s)`: an increasing line through the origin. -/
def fitIncreasing : Except CalibError CalibResult :=
  calculate_calibration true ("BD") ("Plastipak") 10 8 100 1 1 200 1 2

/-- A `timed` command carrying `freq` 100 Hz, syringe diameter 4 mm and
reference diameter 8 mm, as consumed by `SerialManager.send_command`. -/
def timedCmd4mm : CommandData :=
  { type := "timed", freq := some 100, syringeDiameter := some 4,
    referenceDiameter := some 8 }

/-- An MCU profile wiring motor `"mot1"` to step pin 2 and dir pin 3. -/
def mcuExample : MCUProfile := ⟨[⟨"mot1", 2, 3⟩]⟩

/-- Motor `"mot1"` with the increasing calibration and an 8 mm syringe. -/
def motorExample : MotorRecord := ⟨"mot1", ⟨true, 3/5, 0, 1/200000, 600⟩, some 8⟩

/-- An initialized `FreeStepPump` runtime state whose rate was just set to
2 mL/min while the last-sent rate is 0. -/
def fsChanged : FSPumpState := ⟨true, some mcuExample, some motorExample, 2, 0, 4⟩

/-- An initialized `FreeStepPump` runtime state whose rate equals the
last-sent rate. -/
def fsUnchanged : FSPumpState := ⟨true, some mcuExample, some motorExample, 2, 2, 4⟩

/-- A connected `TMCPump` state at 2 mL/min with 200 steps/mL. -/
def tmcExample : TMCState := ⟨2, 3, 800, 16, 200, 2, true⟩

/-- The single `basic` command `TMCPump._update` emits from `tmcExample`
(2 mL/min · 200 steps/mL ÷ 60 = 20/3 Hz). -/
def tmcExampleCmd : CommandData :=
  { type := "basic", stepPin := some 2, dirPin := some 3, freq := some (20/3),
    direction := some ("forward"), current := some 800, microsteps := some 16 }

/-- The empty shared-controller pool (no ports open, no users). -/
def emptyPool : PoolState := ⟨fun _ => none, fun _ => none, 0, []⟩

/-- The fresh component-naming state: empty `used_names`, all counters 0. -/
def freshNames : NameState := ⟨[], fun _ => 0⟩

/-- Constructing `Component(name="Component_0")` and then `Component()` from a
fresh process state, returning the two names chosen (`none` if either raised). -/
def twoComponentNames : Option (String × String) :=
  (do
    let (n1, st1) ← Component.init freshNames ("Component") (some ("Component_0"))
    let (n2, _) ← Component.init st1 ("Component") none
    pure (n1, n2) : Except String (String × String)).toOption

/-! # Theorems -/

/-- **C1, counterexample.** The claim says `toFrequency` succeeds when the
requested rate equals `minFlowRate` (half-open band `[min, max)`), returning
`(r - intercept) / slope`.  On the calibrated profile with slope 1,
intercept 0 and band `(1, 10)`, the code rejects `r = minFlowRate = 1`
(`ups <= min_ups` returns `None`), so the claimed `some 1` is not produced. -/
theorem C1_counterexample :
    bandProfile.calibrated = true ∧ bandProfile.minUPS = 1 ∧
    convert_ups_to_freq bandProfile 1 = none ∧
    some ((1 - bandProfile.UPSIntercept) / bandProfile.UPSSlope) ≠
      (none : Option ℚ) := by
  refine ⟨rfl, rfl, rfl, ?_⟩
  decide

/-- **C1, amended.** For every calibrated motor profile and requested flow
rate `r`, `convert_ups_to_freq` succeeds exactly when `r` lies in the *open*
band `(minFlowRate, maxFlowRate)` — in particular it fails both at
`r = minFlowRate` and at `r = maxFlowRate` — and inside the band it returns
`(r - intercept) / slope`. -/
theorem C1_band_and_formula (m : MotorProfile) (r : ℚ)
    (hc : m.calibrated = true) :
    ((convert_ups_to_freq m r).isSome ↔ m.minUPS < r ∧ r < m.maxUPS) ∧
    (m.minUPS < r → r < m.maxUPS →
      convert_ups_to_freq m r = some ((r - m.UPSIntercept) / m.UPSSlope)) := by
  unfold convert_ups_to_freq
  rw [hc]
  simp only [Bool.not_true, Bool.false_eq_true, if_false]
  constructor
  · split_ifs with h2 h3
    · simp; intro h; linarith
    · simp; intro h; linarith
    · simp; push_neg at h2 h3; exact ⟨h3, h2⟩
  · intro hmin hmax
    split_ifs with h2 h3 <;> first | rfl | linarith

/-- **C1, witness.** The amended theorem instantiated on the band-`(1, 10)`
profile at `r = 2`: the conversion succeeds and returns `(2 - 0) / 1 = 2`. -/
theorem C1_witness :
    ((convert_ups_to_freq bandProfile 2).isSome ↔
        bandProfile.minUPS < 2 ∧ 2 < bandProfile.maxUPS) ∧
    (bandProfile.minUPS < 2 → 2 < bandProfile.maxUPS →
      convert_ups_to_freq bandProfile 2 =
        some ((2 - bandProfile.UPSIntercept) / bandProfile.UPSSlope)) :=
  C1_band_and_formula bandProfile 2 rfl

/-- Helper: the `min_ups` clamp never falls below the intercept it clamps. -/
theorem le_clampMin (x : ℚ) : x ≤ clampMin x := by
  unfold clampMin
  split_ifs with h <;> linarith

/-- **C2, counterexample.** Trials `(100 Hz, 2 mL, 1 s)` and
`(200 Hz, 1 mL, 1 s)` have distinct frequencies and positive volumes, yet the
fit stores slope `-3/5`, intercept `180`, `maxUPS = -420`, `minUPS = 180`, and
converting trial 1's flow rate `vol₁/dur₁ = 2` back fails (`2 ≥ maxUPS`), so
`freq₁ = 100` is not recovered. -/
theorem C2_counterexample :
    fitDecreasing = .ok ⟨-3/5, 180, -420, 180⟩ ∧
    convert_ups_to_freq (CalibResult.toProfile ⟨-3/5, 180, -420, 180⟩) (2 / 1)
      ≠ some 100 := by
  constructor
  · unfold fitDecreasing calculate_calibration
    rw [if_neg (by decide), if_neg (by decide)]
    norm_num [clampMin]
  · unfold convert_ups_to_freq CalibResult.toProfile
    norm_num
    decide

/-- **C2, amended.** Whenever `calculate_calibration` succeeds on two trials,
converting each trial's observed flow rate — which the code computes as
`measurement / duration * 60` (mL/s → mL/min), not `measurement / duration` —
back through `convert_ups_to_freq` recovers that trial's frequency exactly,
provided the observed flow lies strictly inside the stored
`(minUPS, maxUPS)` band. -/
theorem C2_round_trip (b mo : String) (sv sd f1 d1 m1 f2 d2 m2 : ℚ)
    (r : CalibResult)
    (h : calculate_calibration true b mo sv sd f1 d1 m1 f2 d2 m2 = .ok r) :
    (r.minUPS < m1 / d1 * 60 → m1 / d1 * 60 < r.maxUPS →
      convert_ups_to_freq r.toProfile (m1 / d1 * 60) = some f1) ∧
    (r.minUPS < m2 / d2 * 60 → m2 / d2 * 60 < r.maxUPS →
      convert_ups_to_freq r.toProfile (m2 / d2 * 60) = some f2) := by
  unfold calculate_calibration at h
  simp only [Bool.not_true, Bool.false_eq_true, if_false] at h
  split_ifs at h with g1 g2 g3 g4 g5 g6
  try simp at h
  set u1 : ℚ := m1 / d1 * 60 with hu1
  set u2 : ℚ := m2 / d2 * 60 with hu2
  set sl : ℚ := (u2 - u1) / (f2 - f1) with hsl
  set ic : ℚ := u1 - sl * f1 with hic
  obtain rfl : CalibResult.mk sl ic (ic + sl * 1000) (clampMin ic) = r := by
    exact_mod_cast h
  have hkey : sl * (f2 - f1) = u2 - u1 := by
    rw [hsl]; exact div_mul_cancel₀ _ g6
  constructor
  · intro hlo hhi
    simp only [CalibResult.toProfile] at hlo hhi ⊢
    have hs0 : sl ≠ 0 := by
      intro h0
      rw [hic, h0, zero_mul, sub_zero] at hlo
      exact absurd hlo (not_lt.mpr (le_clampMin u1))
    simp only [convert_ups_to_freq, Bool.not_true, Bool.false_eq_true, if_false]
    rw [if_neg (not_le.mpr hhi), if_neg (not_le.mpr hlo)]
    have hnum : u1 - ic = sl * f1 := by rw [hic]; ring
    rw [hnum, mul_div_cancel_left₀ _ hs0]
  · intro hlo hhi
    simp only [CalibResult.toProfile] at hlo hhi ⊢
    have hs0 : sl ≠ 0 := by
      intro h0
      have hu : u2 = u1 := by
        rw [hsl, div_eq_zero_iff] at h0
        rcases h0 with h0 | h0
        · linarith
        · exact absurd h0 g6
      rw [hic, h0, zero_mul, sub_zero, hu] at hlo
      exact absurd hlo (not_lt.mpr (le_clampMin u1))
    simp only [convert_ups_to_freq, Bool.not_true, Bool.false_eq_true, if_false]
    rw [if_neg (not_le.mpr hhi), if_neg (not_le.mpr hlo)]
    have hnum : u2 - ic = sl * f2 := by
      rw [hic]
      linear_combination -hkey
    rw [hnum, mul_div_cancel_left₀ _ hs0]

/-- **C2, witness.** The amended theorem on trials `(100 Hz, 1 mL, 1 s)` and
`(200 Hz, 2 mL, 1 s)`: the fit is slope `3/5`, intercept `0`, band
`(1/200000, 600)`; both observed flows (60 and 120 mL/min) are in band and
convert back to exactly 100 Hz and 200 Hz. -/
theorem C2_witness :
    convert_ups_to_freq (CalibResult.toProfile ⟨3/5, 0, 600, 1/200000⟩)
        (1 / 1 * 60) = some 100 ∧
    convert_ups_to_freq (CalibResult.toProfile ⟨3/5, 0, 600, 1/200000⟩)
        (2 / 1 * 60) = some 200 :=
  have h := C2_round_trip ("BD") ("Plastipak") 10 8 100 1 1 200 1 2
    ⟨3/5, 0, 600, 1/200000⟩
    (by unfold calculate_calibration
        rw [if_neg (by decide), if_neg (by decide)]
        norm_num [clampMin])
  ⟨h.1 (by norm_num [CalibResult.toProfile]) (by norm_num [CalibResult.toProfile]),
   h.2 (by norm_num [CalibResult.toProfile]) (by norm_num [CalibResult.toProfile])⟩

/-- **C3, counterexample.** A `timed` command carrying requested frequency
`f = 100`, syringe diameter `d = 4` mm and reference diameter `D = 8` mm is
transmitted with frequency `400 = f · (D/d)²`, whereas the claim's
`f / (D/d)² = 25`; the transmitted frequency is therefore not `f` divided by
the area ratio. -/
theorem C3_counterexample :
    (SerialManager.prepare_command timedCmd4mm).freq = some 400 ∧
    (100 : ℚ) / ((8 / 4) ^ 2) = 25 ∧ (400 : ℚ) ≠ 25 := by
  refine ⟨?_, by norm_num, by norm_num⟩
  unfold timedCmd4mm SerialManager.prepare_command piApprox
  norm_num

/-- **C3, amended.** For every command carrying a syringe diameter `d > 0`, a
reference diameter `D` and a requested frequency `f`, the frequency actually
transmitted is `f` *multiplied* by the dimensionless area ratio `(D/d)²`
(the two `3.14159` factors cancel exactly); consequently doubling the in-use
diameter at a fixed requested frequency divides the transmitted frequency by
exactly 4 (so the effective flow, proportional to `d²` times the transmitted
frequency, is left unchanged rather than quadrupled). -/
theorem C3_area_ratio (c : CommandData) (d D f : ℚ)
    (hd : 0 < d) (hsy : c.syringeDiameter = some d) (hf : c.freq = some f)
    (hr : c.referenceDiameter = some D) :
    (SerialManager.prepare_command c).freq = some (f * (D / d) ^ 2) ∧
    (SerialManager.prepare_command
        { c with syringeDiameter := some (2 * d) }).freq =
      some (f * (D / d) ^ 2 / 4) := by
  have hd0 : d ≠ 0 := ne_of_gt hd
  have hpi : (0 : ℚ) < piApprox := by norm_num [piApprox]
  constructor
  · unfold SerialManager.prepare_command
    rw [hsy, hf, hr]
    simp only [Option.getD_some]
    rw [if_pos (by positivity)]
    congr 1
    field_simp
    ring
  · unfold SerialManager.prepare_command
    simp only [hf, hr]
    simp only [Option.getD_some]
    rw [if_pos (by positivity)]
    congr 1
    field_simp
    ring

/-- **C3, witness.** The amended theorem at `d = 4`, `D = 8`, `f = 100`:
the wire frequency is `100 · (8/4)² = 400`, and with the diameter doubled to
8 mm it is `400 / 4 = 100`. -/
theorem C3_witness :
    (SerialManager.prepare_command timedCmd4mm).freq = some (100 * (8 / 4) ^ 2) ∧
    (SerialManager.prepare_command
        { timedCmd4mm with syringeDiameter := some (2 * 4) }).freq =
      some (100 * (8 / 4) ^ 2 / 4) :=
  C3_area_ratio timedCmd4mm 4 8 100 (by norm_num) rfl rfl rfl

/-- **C4.** From any pool state in which `port` has no controller and no user
entry, two pumps entering on the same port share one controller: the second
`__enter__` returns the same controller as the first and allocates no new one;
after the first `__exit__` the controller is still registered for the port and
nothing has been disconnected; after the second `__exit__` the controller is
removed from `_shared_controllers` and has been disconnected. -/
theorem C4_shared_port_refcount (ps : PoolState) (port : String) (p1 p2 : ℕ)
    (_hp : p1 ≠ p2)
    (hc : ps.shared_controllers port = none)
    (hu : ps.port_users port = none) :
    (FreeStepPump.enter (FreeStepPump.enter ps port p1).1 port p2).2 =
        (FreeStepPump.enter ps port p1).2 ∧
    (FreeStepPump.enter (FreeStepPump.enter ps port p1).1 port p2).1.next_controller =
        (FreeStepPump.enter ps port p1).1.next_controller ∧
    (FreeStepPump.exit (FreeStepPump.enter (FreeStepPump.enter ps port p1).1 port p2).1
        port p1).shared_controllers port =
      some (FreeStepPump.enter ps port p1).2 ∧
    (FreeStepPump.exit (FreeStepPump.enter (FreeStepPump.enter ps port p1).1 port p2).1
        port p1).disconnected = ps.disconnected ∧
    (FreeStepPump.exit (FreeStepPump.exit
        (FreeStepPump.enter (FreeStepPump.enter ps port p1).1 port p2).1 port p1)
        port p2).shared_controllers port = none ∧
    (FreeStepPump.exit (FreeStepPump.exit
        (FreeStepPump.enter (FreeStepPump.enter ps port p1).1 port p2).1 port p1)
        port p2).disconnected =
      ps.disconnected ++ [(FreeStepPump.enter ps port p1).2] := by
  simp [FreeStepPump.enter, FreeStepPump.exit, dictSet, hc, hu,
    List.erase_cons_head]

/-- **C4, witness.** The reference-counting law run from the empty pool on
`"COM3"` with pumps `0` and `1`. -/
theorem C4_witness :
    (FreeStepPump.enter (FreeStepPump.enter emptyPool ("COM3") 0).1 ("COM3") 1).2 =
        (FreeStepPump.enter emptyPool ("COM3") 0).2 ∧
    (FreeStepPump.enter (FreeStepPump.enter emptyPool ("COM3") 0).1
        ("COM3") 1).1.next_controller =
        (FreeStepPump.enter emptyPool ("COM3") 0).1.next_controller ∧
    (FreeStepPump.exit (FreeStepPump.enter (FreeStepPump.enter emptyPool ("COM3") 0).1
        ("COM3") 1).1 ("COM3") 0).shared_controllers ("COM3") =
      some (FreeStepPump.enter emptyPool ("COM3") 0).2 ∧
    (FreeStepPump.exit (FreeStepPump.enter (FreeStepPump.enter emptyPool ("COM3") 0).1
        ("COM3") 1).1 ("COM3") 0).disconnected = emptyPool.disconnected ∧
    (FreeStepPump.exit (FreeStepPump.exit
        (FreeStepPump.enter (FreeStepPump.enter emptyPool ("COM3") 0).1 ("COM3") 1).1
        ("COM3") 0) ("COM3") 1).shared_controllers ("COM3") = none ∧
    (FreeStepPump.exit (FreeStepPump.exit
        (FreeStepPump.enter (FreeStepPump.enter emptyPool ("COM3") 0).1 ("COM3") 1).1
        ("COM3") 0) ("COM3") 1).disconnected =
      emptyPool.disconnected ++ [(FreeStepPump.enter emptyPool ("COM3") 0).2] :=
  C4_shared_port_refcount emptyPool ("COM3") 0 1 (by decide) rfl rfl

/-- **C5.** For every initialized `FreeStepPump` state whose rate (in mL/min)
differs from the last-sent rate and exceeds the near-zero threshold `1e-6` in
absolute value, `_update` raises `TypeError` — the call passes the keyword
`diameter_ratio`, which `run_basic_command`'s parameter list does not contain —
and, moreover, no state whatsoever makes `_update` transmit a `basic` command:
everything it ever writes is a `stop`. -/
theorem C5_diameter_ratio_TypeError (s : FSPumpState)
    (hinit : s.port_initialized = true)
    (hmcu : s.mcu_profile.isSome) (hmot : s.motor_record.isSome)
    (hchanged : s.rate_mlmin ≠ s.last_rate)
    (hbig : 1 / 1000000 < |s.rate_mlmin|) :
    pyCallAccepts run_basic_command_params 5 ["diameter_ratio"] = false ∧
    (FreeStepPump.update s).error = some .typeError ∧
    (∀ t : FSPumpState, ∀ c ∈ (FreeStepPump.update t).sent, c.type = "stop") := by
  have hstop : ∀ (mcu : MCUProfile) (mot : MotorRecord),
      ∀ x ∈ (FreeStepController.stop_command mcu mot).toList, x.type = "stop" := by
    intro mcu mot x hx
    unfold FreeStepController.stop_command at hx
    cases hfind : mcu.findMotor mot.uniqueID <;> rw [hfind] at hx <;> simp at hx
    rw [hx]
    rfl
  refine ⟨by decide, ?_, ?_⟩
  · obtain ⟨mcu, hm⟩ := Option.isSome_iff_exists.mp hmcu
    obtain ⟨mot, hq⟩ := Option.isSome_iff_exists.mp hmot
    unfold FreeStepPump.update
    rw [hm, hq]
    dsimp only
    rw [hinit]
    simp only [Bool.not_true, Bool.false_eq_true, if_false]
    rw [if_pos hchanged, if_neg (not_le.mpr hbig)]
    rw [if_neg (by decide : ¬pyCallAccepts run_basic_command_params 5
      ["diameter_ratio"] = true)]
  · intro t c hc
    obtain ⟨pi, mp, mr, rate, last, dia⟩ := t
    cases mp with
    | none => simp [FreeStepPump.update] at hc
    | some mcu =>
      cases mr with
      | none => simp [FreeStepPump.update] at hc
      | some mot =>
        simp only [FreeStepPump.update] at hc
        split_ifs at hc with h1 h2 h3 h4
        all_goals try simp at hc
        all_goals first
          | (exact absurd (by assumption : pyCallAccepts run_basic_command_params
              5 ["diameter_ratio"] = true) (by decide))
          | (exact hstop mcu mot c (by simp [hc]))

/-- **C5, witness.** The theorem applied to an initialized pump whose rate was
just set to 2 mL/min (last-sent 0): `_update` ends in `TypeError` and the
keyword check fails. -/
theorem C5_witness :
    pyCallAccepts run_basic_command_params 5 ["diameter_ratio"] = false ∧
    (FreeStepPump.update fsChanged).error = some .typeError ∧
    (∀ t : FSPumpState, ∀ c ∈ (FreeStepPump.update t).sent, c.type = "stop") :=
  C5_diameter_ratio_TypeError fsChanged rfl rfl rfl
    (by norm_num [fsChanged]) (by norm_num [fsChanged])

/-- **C6, counterexample.** On trials `(100 Hz, 1 mL, 1 s)` and
`(200 Hz, 2 mL, 1 s)` the code stores slope `3/5` — it computes each
observed flow as `measurement / duration * 60` (seconds → mL/min) — whereas
the claim's formula `(vol₂/dur₂ - vol₁/dur₁)/(freq₂ - freq₁)` gives `1/100`. -/
theorem C6_counterexample :
    fitIncreasing = .ok ⟨3/5, 0, 600, 1/200000⟩ ∧
    (2 / 1 - 1 / 1) / ((200 : ℚ) - 100) = 1 / 100 ∧
    (3 / 5 : ℚ) ≠ 1 / 100 := by
  refine ⟨?_, by norm_num, by norm_num⟩
  unfold fitIncreasing calculate_calibration
  rw [if_neg (by decide), if_neg (by decide)]
  norm_num [clampMin]

/-- **C6, amended.** For every pair of trials with distinct frequencies (and
inputs passing the validation guards), the fit stores
`slope = (flow₂ - flow₁)/(freq₂ - freq₁)` and
`intercept = flow₁ - slope·freq₁` where each observed flow is
`measurement/duration · 60` (duration in seconds, flow in mL/min), with
`minFlowRate = intercept` clamped below at `5·10⁻⁶` and
`maxFlowRate = intercept + slope·1000`. -/
theorem C6_fit_formulas (brand model : String) (sv sd f1 d1 m1 f2 d2 m2 : ℚ)
    (hbrand : pyStrip brand ≠ "") (hmodel : pyStrip model ≠ "")
    (hsv : 0 < sv) (hsd : 0 < sd) (hm1 : 0 < m1) (hm2 : 0 < m2)
    (hd1 : d1 ≠ 0) (hd2 : d2 ≠ 0) (hf : f1 ≠ f2) :
    calculate_calibration true brand model sv sd f1 d1 m1 f2 d2 m2 =
      .ok ⟨(m2 / d2 * 60 - m1 / d1 * 60) / (f2 - f1),
           m1 / d1 * 60 - (m2 / d2 * 60 - m1 / d1 * 60) / (f2 - f1) * f1,
           m1 / d1 * 60 - (m2 / d2 * 60 - m1 / d1 * 60) / (f2 - f1) * f1 +
             (m2 / d2 * 60 - m1 / d1 * 60) / (f2 - f1) * 1000,
           clampMin (m1 / d1 * 60 - (m2 / d2 * 60 - m1 / d1 * 60) / (f2 - f1) * f1)⟩ := by
  unfold calculate_calibration
  rw [if_neg (by simp), if_neg (by simp [hbrand, hmodel]),
    if_neg (by simp [not_le.mpr hsv, not_le.mpr hsd]),
    if_neg (by simp [not_le.mpr hm1, not_le.mpr hm2]),
    if_neg hd1, if_neg hd2, if_neg (sub_ne_zero.mpr (Ne.symm hf))]

/-- **C6, witness.** The amended formulas on trials `(100 Hz, 1 mL, 1 s)` and
`(200 Hz, 2 mL, 1 s)`. -/
theorem C6_witness :
    calculate_calibration true ("BD") ("Plastipak") 10 8 100 1 1 200 1 2 =
      .ok ⟨(2 / 1 * 60 - 1 / 1 * 60) / (200 - 100),
           1 / 1 * 60 - (2 / 1 * 60 - 1 / 1 * 60) / (200 - 100) * 100,
           1 / 1 * 60 - (2 / 1 * 60 - 1 / 1 * 60) / (200 - 100) * 100 +
             (2 / 1 * 60 - 1 / 1 * 60) / (200 - 100) * 1000,
           clampMin (1 / 1 * 60 - (2 / 1 * 60 - 1 / 1 * 60) / (200 - 100) * 100)⟩ :=
  C6_fit_formulas ("BD") ("Plastipak") 10 8 100 1 1 200 1 2
    (by decide) (by decide) (by norm_num) (by norm_num) (by norm_num)
    (by norm_num) (by norm_num) (by norm_num) (by norm_num)

/-- **C7.** Whenever the two trial frequencies are equal or either measured
volume is non-positive, `calculate_calibration` fails (an input-validation
early return, or the `ZeroDivisionError` escaping from the slope division)
and the selected motor profile is left exactly as it was: no calibration data
is stored. -/
theorem C7_fit_failure (prev : MotorProfile) (sel : Bool) (brand model : String)
    (sv sd f1 d1 m1 f2 d2 m2 : ℚ)
    (h : f1 = f2 ∨ m1 ≤ 0 ∨ m2 ≤ 0) :
    (∃ e, calculate_calibration sel brand model sv sd f1 d1 m1 f2 d2 m2 =
      .error e) ∧
    calibrate_and_store prev sel brand model sv sd f1 d1 m1 f2 d2 m2 = prev := by
  have herr : ∃ e, calculate_calibration sel brand model sv sd f1 d1 m1 f2 d2 m2 =
      .error e := by
    unfold calculate_calibration
    split_ifs with g1 g2 g3 g4 g5 g6 g7 <;>
      first
        | exact ⟨_, rfl⟩
        | skip
    -- the success branch contradicts the hypothesis
    rcases h with h | h | h
    · exact absurd (by rw [h, sub_self]) g7
    · exact absurd (by simp [h] : (decide (m1 ≤ 0) || decide (m2 ≤ 0)) = true) g4
    · exact absurd (by simp [h] : (decide (m1 ≤ 0) || decide (m2 ≤ 0)) = true) g4
  obtain ⟨e, he⟩ := herr
  refine ⟨⟨e, he⟩, ?_⟩
  unfold calibrate_and_store
  rw [he]

/-- **C7, witness.** Equal trial frequencies (100 Hz twice): the fit fails and
the previously stored profile is unchanged. -/
theorem C7_witness :
    (∃ e, calculate_calibration true ("BD") ("Plastipak") 10 8 100 1 1 100 1 2 =
      .error e) ∧
    calibrate_and_store bandProfile true ("BD") ("Plastipak") 10 8 100 1 1 100 1 2 =
      bandProfile :=
  C7_fit_failure bandProfile true ("BD") ("Plastipak") 10 8 100 1 1 100 1 2
    (Or.inl rfl)

/-- **C8, counterexample.** `TMCPump._update` tracks no last-sent value: from
the state `tmcExample` (2 mL/min, 200 steps/mL) it writes the `basic` command
at 20/3 Hz, and a second `_update` call in the identical state — the rate now
equal to the value just sent — writes the very same command again instead of
writing nothing. -/
theorem C8_counterexample :
    TMCPump.update tmcExample = .ok [tmcExampleCmd] ∧
    TMCPump.update tmcExample ≠ .ok ([] : List CommandData) := by
  have h1 : TMCPump.update tmcExample = .ok [tmcExampleCmd] := by
    unfold TMCPump.update TMCPump.hz_from_flow_rate tmcExample tmcExampleCmd
    norm_num
  exact ⟨h1, by rw [h1]; simp⟩

/-- **C8, amended.** The only-on-change rule holds for `FreeStepPump`: when
the rate in mL/min equals `_last_rate`, `_update` writes nothing and raises
nothing.  `TMCPump._update`, by contrast, writes exactly one command on every
call (when its serial handle is open), whatever was sent before. -/
theorem C8_only_on_change (s : FSPumpState) (t : TMCState)
    (hinit : s.port_initialized = true)
    (hmcu : s.mcu_profile.isSome) (hmot : s.motor_record.isSome)
    (heq : s.rate_mlmin = s.last_rate)
    (hser : t.ser_connected = true) :
    (FreeStepPump.update s).sent = [] ∧ (FreeStepPump.update s).error = none ∧
    ∃ c, TMCPump.update t = .ok [c] := by
  obtain ⟨mcu, hm⟩ := Option.isSome_iff_exists.mp hmcu
  obtain ⟨mot, hq⟩ := Option.isSome_iff_exists.mp hmot
  have hres : FreeStepPump.update s = ⟨[], s, none⟩ := by
    unfold FreeStepPump.update
    rw [hm, hq]
    dsimp only
    rw [hinit]
    simp only [Bool.not_true, Bool.false_eq_true, if_false]
    rw [if_neg (not_ne_iff.mpr heq)]
  refine ⟨by rw [hres], by rw [hres], ?_⟩
  unfold TMCPump.update
  rw [hser]
  simp only [Bool.not_true, Bool.false_eq_true, if_false]
  exact ⟨_, rfl⟩

/-- **C8, witness.** The amended statement on an initialized `FreeStepPump`
whose rate equals the last-sent 2 mL/min, and the connected `tmcExample`. -/
theorem C8_witness :
    (FreeStepPump.update fsUnchanged).sent = [] ∧
    (FreeStepPump.update fsUnchanged).error = none ∧
    ∃ c, TMCPump.update tmcExample = .ok [c] :=
  C8_only_on_change fsUnchanged tmcExample rfl rfl rfl rfl rfl

/-- **C9.** `Tube.__init__` compares its *raw string arguments* on line 59, so
`Tube(length="50 mm", inner_diameter="10 mm", outer_diameter="2 mm")` — where
the outer diameter (2 mm) is far smaller than the inner diameter (10 mm) —
constructs successfully, because the string `"2 mm"` is not lexicographically
≤ the string `"10 mm"`; the resulting tube violates the documented invariant
`outer diameter > inner diameter`. -/
theorem C9_tube_raw_string_comparison :
    Tube.make ("50 mm") ("10 mm") ("2 mm") none none =
      .ok ⟨⟨50, .length⟩, ⟨10, .length⟩, ⟨2, .length⟩, none, none, false, 1250⟩ ∧
    (2 : ℚ) < 10 := by
  refine ⟨?_, by norm_num⟩
  simp +decide [Tube.make, parse_expression, pySplit, splitOnChar, parseDecimal?,
    strToNat?, natOfDigits?, digitVal?, unitTable, pyStrLe, pyCharListLe]
  norm_num
  rfl

/-- **C10.** The duplicate-name guard of `Component.__init__` only protects
explicitly supplied names: from a fresh process state,
`Component(name="Component_0")` succeeds, and a subsequent `Component()`
auto-generates the very same name `"Component_0"` without raising, so two
components share a name. -/
theorem C10_auto_name_collision :
    twoComponentNames = some (("Component_0"), ("Component_0")) := by
  simp +decide [twoComponentNames, Component.init, freshNames, setAdd,
    natToStr, natToStrAux, natDigitChar]

end MechWolf
